import Mathlib

/-!
Verification of the quote-resolver logic of a stock-dashboard repository
(`finance_info_alphavantage.py`). The fetch functions are embedded as pure
Lean functions over an explicit "network outcome" parameter: every way the
HTTP layer can behave (connection error, timeout, malformed JSON, a JSON
body of a given shape) is a constructor of an outcome type, and the
embedded function reproduces the Python control flow on top of it.
Numeric strings are parsed into rationals by an explicit parser modelling
Python's `float`/`int` conversions.
-/

namespace FinanceInfo

/-- Value of a digit string, most significant first (`int`-style fold). -/
def digitsToNat (l : List Char) : Nat :=
  l.foldl (fun a c => 10 * a + (c.toNat - 48)) 0

/-- A non-empty all-digit string parses to its value; otherwise `none`. -/
def digitsValOpt (l : List Char) : Option Nat :=
  if !l.isEmpty && l.all Char.isDigit then some (digitsToNat l) else none

/-- Unsigned decimal literal: digits with an optional single decimal point,
at least one digit overall (models the core of Python `float`). -/
def parseUnsigned (l : List Char) : Option ℚ :=
  match l.dropWhile (fun c => c != '.') with
  | [] =>
    if !(l.takeWhile (fun c => c != '.')).isEmpty
        && (l.takeWhile (fun c => c != '.')).all Char.isDigit then
      some (digitsToNat (l.takeWhile (fun c => c != '.')) : ℚ)
    else none
  | _ :: fp =>
    if (!(l.takeWhile (fun c => c != '.')).isEmpty || !fp.isEmpty)
        && (l.takeWhile (fun c => c != '.')).all Char.isDigit
        && fp.all Char.isDigit then
      some ((digitsToNat (l.takeWhile (fun c => c != '.')) : ℚ)
        + (digitsToNat fp : ℚ) / (10 : ℚ) ^ fp.length)
    else none

/-- Signed decimal literal: optional sign then `parseUnsigned`
(models Python `float(s)` on the strings the provider sends). -/
def parseDecimal (l : List Char) : Option ℚ :=
  match l with
  | [] => none
  | c :: rest =>
    if c = '-' then (parseUnsigned rest).map Neg.neg
    else if c = '+' then parseUnsigned rest
    else parseUnsigned (c :: rest)

/-- Signed integer literal (models Python `int(s)`). -/
def parseInt (l : List Char) : Option ℤ :=
  match l with
  | [] => none
  | c :: rest =>
    if c = '-' then (digitsValOpt rest).map (fun n => -(n : ℤ))
    else if c = '+' then (digitsValOpt rest).map (fun n => (n : ℤ))
    else (digitsValOpt (c :: rest)).map (fun n => (n : ℤ))

/-- Drop leading `%` characters. -/
def dropLeadPercent (l : List Char) : List Char :=
  l.dropWhile (fun c => c == '%')

/-- Drop trailing `%` characters. -/
def dropTrailPercent (l : List Char) : List Char :=
  (l.reverse.dropWhile (fun c => c == '%')).reverse

/-- Python `s.strip("%")`: drop `%` from both ends. -/
def stripPercent (l : List Char) : List Char :=
  dropLeadPercent (dropTrailPercent l)

/-- Python `needle in haystack` on strings: substring containment. -/
def strContains (hay needle : String) : Bool :=
  hay.data.tails.any (fun t => needle.data.isPrefixOf t)

/-- The parsed quote record built at lines 207-217 of the source. -/
structure Quote where
  price : ℚ
  change : ℚ
  change_percent : ℚ
  previous_close : ℚ
  volume : ℤ
  latest_trading_day : String
  open_ : ℚ
  high : ℚ
  low : ℚ
  deriving DecidableEq, Repr

/-- Look up a field and convert with `float`; a missing key models the
`KeyError` that escapes to the outer handler, a bad number the
`ValueError` caught at line 219. -/
def floatField (f : List (String × String)) (k : String) : Except String ℚ :=
  match f.lookup k with
  | none => .error ("Error: '" ++ k ++ "'")
  | some s =>
    match parseDecimal s.data with
    | none => .error ("Error: Could not parse stock data. could not convert string to float: '" ++ s ++ "'")
    | some q => .ok q

/-- Look up a field and convert with `int`. -/
def intField (f : List (String × String)) (k : String) : Except String ℤ :=
  match f.lookup k with
  | none => .error ("Error: '" ++ k ++ "'")
  | some s =>
    match parseInt s.data with
    | none => .error ("Error: Could not parse stock data. invalid literal for int: '" ++ s ++ "'")
    | some n => .ok n

/-- Look up a plain string field. -/
def strField (f : List (String × String)) (k : String) : Except String String :=
  match f.lookup k with
  | none => .error ("Error: '" ++ k ++ "'")
  | some s => .ok s

/-- Line 210 of the source: `float(qd["10. change percent"].strip("%")) / 100`. -/
def cpField (f : List (String × String)) : Except String ℚ :=
  match f.lookup "10. change percent" with
  | none => .error "Error: '10. change percent'"
  | some s =>
    match parseDecimal (stripPercent s.data) with
    | none => .error ("Error: Could not parse stock data. could not convert string to float: '" ++ s ++ "'")
    | some q => .ok (q / 100)

/-- The dict literal of lines 207-217, evaluated field by field in source
order; the first failing field aborts with its error. -/
def parseQuoteE (f : List (String × String)) : Except String Quote := do
  let p ← floatField f "05. price"
  let c ← floatField f "09. change"
  let cp ← cpField f
  let pc ← floatField f "08. previous close"
  let v ← intField f "06. volume"
  let ltd ← strField f "07. latest trading day"
  let o ← floatField f "02. open"
  let hi ← floatField f "03. high"
  let lo ← floatField f "04. low"
  return ⟨p, c, cp, pc, v, ltd, o, hi, lo⟩

/-- Lines 205-220: parse the quote fields into the result pair. -/
def parseQuote (f : List (String × String)) : Option Quote × Option String :=
  match parseQuoteE f with
  | .ok q => (some q, none)
  | .error e => (none, some e)

/-- Shape of the JSON body a quote request can return: an optional
`"Global Quote"` object (a string-to-string mapping), optional
`"Error Message"` and `"Note"` strings, and any other top-level keys. -/
structure QuoteData where
  globalQuote : Option (List (String × String))
  errorMessage : Option String
  note : Option String
  others : List (String × String)
  deriving DecidableEq, Repr

/-- Python `not data` on the response dict: no key present at all. -/
def QuoteData.isEmptyData (d : QuoteData) : Bool :=
  d.globalQuote.isNone && d.errorMessage.isNone && d.note.isNone && d.others.isEmpty

/-- Everything the quote HTTP request can do, as seen by `get_stock_price`:
the `requests` exceptions of lines 182-187, a non-JSON body (line 192),
or a JSON body of shape `QuoteData`. -/
inductive FetchOutcome where
  | connectionError
  | timeout
  | requestError (msg : String)
  | invalidJson
  | json (d : QuoteData)
  deriving DecidableEq, Repr

/-- Lines 222-234 of the source: the `"Error Message"` / `"Note"` /
generic-error checks reached when no quote payload was returned. -/
def classifyEnvelope (symbol : String) (d : QuoteData) : Option Quote × Option String :=
  match d.errorMessage with
  | some m =>
    if strContains m "Invalid API call" then
      (none, some ("Error: Invalid symbol '" ++ symbol ++ "'. Please enter a valid stock symbol."))
    else (none, some m)
  | none =>
    match d.note with
    | some n =>
      if strContains n "API call frequency" then
        (none, some "Rate limit reached. Alpha Vantage allows only 5 API calls per minute on the free tier. Please wait a minute and try again.")
      else (none, some n)
    | none =>
      (none, some ("Error: Could not fetch data for symbol '" ++ symbol ++ "'. The symbol may be invalid or there might be an issue with the API."))

/-- Lines 169-236: `get_stock_price(symbol)`, with the network behaviour
made explicit as `o`. Mirrors the Python control flow branch by branch. -/
def get_stock_price (symbol : String) (o : FetchOutcome) : Option Quote × Option String :=
  if symbol.data.all Char.isWhitespace then
    (none, some "Error: Please enter a valid stock symbol.")
  else if !symbol.data.all Char.isAlphanum then
    (none, some "Error: Stock symbol should only contain letters and numbers.")
  else
    match o with
    | .connectionError =>
      (none, some "Network error: Unable to connect to Alpha Vantage. Please check your internet connection.")
    | .timeout =>
      (none, some "Timeout error: The request to Alpha Vantage timed out. Please try again later.")
    | .requestError m => (none, some ("Request error: " ++ m))
    | .invalidJson =>
      (none, some "Error: Invalid response from Alpha Vantage API. The service might be down.")
    | .json d =>
      if d.isEmptyData then
        (none, some "Error: Empty response from Alpha Vantage API. The service might be experiencing issues.")
      else
        match d.globalQuote with
        | some q =>
          if !q.isEmpty then
            if q.length ≤ 1 then
              (none, some ("Error: No data found for symbol '" ++ symbol ++ "'. Please check if the symbol is correct."))
            else if (q.lookup "05. price").isSome then parseQuote q
            else classifyEnvelope symbol d
          else classifyEnvelope symbol d
        | none => classifyEnvelope symbol d

/-- A pandas frame as the history code uses it: column labels plus rows
(date index with the cell values of the row). -/
structure DataFrame where
  cols : List String
  rows : List (String × List ℚ)
  deriving DecidableEq, Repr

/-- The rename dict of lines 268-274. -/
def avRenameMap : List (String × String) :=
  [("1. open", "Open"), ("2. high", "High"), ("3. low", "Low"),
   ("4. close", "Close"), ("5. volume", "Volume")]

/-- `DataFrame.rename(columns=...)`: map a label through the dict, keep
labels the dict does not mention. -/
def avRename (k : String) : String :=
  (avRenameMap.lookup k).getD k

/-- Lines 268-274: rename the provider's column labels; cell values are
untouched. -/
def renameDF (df : DataFrame) : DataFrame :=
  { cols := df.cols.map avRename, rows := df.rows }

/-- Everything the `TimeSeries` call of lines 247-259 can do: failure to
construct the client, the `requests` exceptions, a `ValueError`, any other
exception (whose message the code inspects), or a returned frame. -/
inductive HistOutcome where
  | connectionError
  | timeout
  | initError (msg : String)
  | callValueError (msg : String)
  | callError (msg : String)
  | ok (df : DataFrame)
  deriving DecidableEq, Repr

/-- The three intervals the `if/elif` chain of lines 254-259 accepts. -/
def intervalOK (interval : String) : Bool :=
  interval == "daily" || interval == "weekly" || interval == "monthly"

/-- Lines 240-294: `get_historical_data(symbol, interval)`, with the
`TimeSeries` call behaviour made explicit as `o`. -/
def get_historical_data (symbol interval : String) (o : HistOutcome) :
    Option DataFrame × Option String :=
  if symbol.data.all Char.isWhitespace then
    (none, some "Error: Please enter a valid stock symbol.")
  else
    match o with
    | .initError m => (none, some ("Error initializing API connection: " ++ m))
    | .connectionError =>
      if intervalOK interval then
        (none, some "Network error: Unable to connect to Alpha Vantage. Please check your internet connection.")
      else (none, some ("Invalid interval: " ++ interval))
    | .timeout =>
      if intervalOK interval then
        (none, some "Timeout error: The request to Alpha Vantage timed out. Please try again later.")
      else (none, some ("Invalid interval: " ++ interval))
    | .callValueError m =>
      if intervalOK interval then (none, some ("Error: Invalid parameter - " ++ m))
      else (none, some ("Invalid interval: " ++ interval))
    | .callError m =>
      if intervalOK interval then
        if strContains m "Invalid API call" then
          (none, some ("Error: '" ++ symbol ++ "' is not a valid stock symbol."))
        else if strContains m "API call frequency" then
          (none, some "Rate limit reached. Alpha Vantage allows only 5 API calls per minute on the free tier.")
        else (none, some ("Error fetching historical data: " ++ m))
      else (none, some ("Invalid interval: " ++ interval))
    | .ok df =>
      if intervalOK interval then
        if df.rows.isEmpty then
          (none, some ("No historical data available for symbol '" ++ symbol ++ "'."))
        else (some (renameDF df), none)
      else (none, some ("Invalid interval: " ++ interval))

/-- Lines 345-374: `filter_by_period(data, period)`. -/
def filter_by_period (data : Option DataFrame) (period : String) : Option DataFrame :=
  match data with
  | none => none
  | some d =>
    if period = "1d" then some { d with rows := d.rows.take 1 }
    else if period = "5d" then some { d with rows := d.rows.take 5 }
    else if period = "1m" then some { d with rows := d.rows.take 21 }
    else if period = "3m" then some { d with rows := d.rows.take 63 }
    else if period = "6m" then some { d with rows := d.rows.take 126 }
    else if period = "1y" then some { d with rows := d.rows.take 252 }
    else if period = "5y" then some { d with rows := d.rows.take 1260 }
    else some d

/-- The period lookup table of the spec (§4.2). -/
def periodTable : List (String × Nat) :=
  [("1d", 1), ("5d", 5), ("1m", 21), ("3m", 63), ("6m", 126), ("1y", 252), ("5y", 1260)]

/-- The fetch-then-filter pipeline as the main script runs it
(lines 614 and 622): fetch history, and filter the value when one came back. -/
def fetch_and_filter (symbol interval period : String) (o : HistOutcome) :
    Option DataFrame × Option String :=
  let r := get_historical_data symbol interval o
  (filter_by_period r.1 period, r.2)

/-- Shape of the JSON body an overview request can return. -/
inductive OvOutcome where
  | connectionError
  | timeout
  | requestError (msg : String)
  | invalidJson
  | json (data : List (String × String))
  deriving DecidableEq, Repr

/-- Lines 298-342: `get_company_overview(symbol)`, with the network
behaviour made explicit as `o`. -/
def get_company_overview (symbol : String) (o : OvOutcome) :
    Option (List (String × String)) × Option String :=
  if symbol.data.all Char.isWhitespace then
    (none, some "Error: Please enter a valid stock symbol.")
  else
    match o with
    | .connectionError =>
      (none, some "Network error: Unable to connect to Alpha Vantage. Please check your internet connection.")
    | .timeout =>
      (none, some "Timeout error: The request to Alpha Vantage timed out. Please try again later.")
    | .requestError m => (none, some ("Request error: " ++ m))
    | .invalidJson =>
      (none, some "Error: Invalid response from API. The service might be down.")
    | .json data =>
      if !data.isEmpty && 1 < data.length && data.lookup "Symbol" == some symbol then
        (some data, none)
      else if data.isEmpty || data.length ≤ 1 then
        (none, some ("Error: No company information found for symbol '" ++ symbol ++ "'. Please check if the symbol is correct."))
      else
        match data.lookup "Error Message" with
        | some m =>
          if strContains m "Invalid API call" then
            (none, some ("Error: Invalid symbol '" ++ symbol ++ "'. Please enter a valid stock symbol."))
          else (none, some m)
        | none =>
          match data.lookup "Note" with
          | some n =>
            if strContains n "API call frequency" then
              (none, some "Rate limit reached. Alpha Vantage allows only 5 API calls per minute on the free tier.")
            else (none, some n)
          | none =>
            (none, some ("Error: Could not fetch company data for symbol '" ++ symbol ++ "'."))

/-- An entry of the demo resolver's static table. -/
structure DemoEntry where
  name : String
  price : ℚ
  change : ℚ
  change_percent : ℚ
  deriving DecidableEq, Repr

/-- Round to two decimal places, as Python `round(x, 2)` on these inputs. -/
def roundTo2 (q : ℚ) : ℚ :=
  ((round (q * 100) : ℤ) : ℚ) / 100

/-- Modelled from the spec: the dual-mode resolver's static demo table is
not among the provided sources; §8 of the spec fixes the `AAPL` entry at
price 188.5 and change 2.75. Only that entry is specified. -/
def demoTable : List (String × DemoEntry) :=
  [("AAPL", ⟨"Apple Inc.", 188.5, 2.75, roundTo2 (2.75 / 188.5 * 100)⟩)]

/-- Modelled from the spec: `resolveDemo(symbol)` (§4.4, §6) is not among
the provided sources. The table is consulted first; an absent but
syntactically valid symbol synthesizes a quote from bounded random draws,
which are passed here explicitly as `price ∈ [50,500]` and
`change ∈ [-10,10]`, with derived percent `round(change/price*100, 2)`. -/
def resolveDemo (symbol : String) (price change : ℚ) : DemoEntry :=
  match demoTable.lookup symbol with
  | some e => e
  | none => ⟨symbol, price, change, roundTo2 (change / price * 100)⟩

/-- A complete, well-formed `"Global Quote"` payload used as concrete data. -/
def sampleQuoteFields : List (String × String) :=
  [("01. symbol", "IBM"), ("02. open", "100.0"), ("03. high", "101.5"),
   ("04. low", "99.5"), ("05. price", "100.5"), ("06. volume", "1000"),
   ("07. latest trading day", "2024-01-02"), ("08. previous close", "99.0"),
   ("09. change", "1.5"), ("10. change percent", "1.5152%")]

/-- The quote `sampleQuoteFields` parses to (price 100.5, change 1.5,
change percent 1.5152% stored as a fraction, previous close 99.0,
volume 1000, open 100.0, high 101.5, low 99.5). -/
def sampleQuote : Quote :=
  ⟨100 + 5 / 10 ^ 1, 1 + 5 / 10 ^ 1, (1 + 5152 / 10 ^ 4) / 100, 99 + 0 / 10 ^ 1,
   1000, "2024-01-02", 100 + 0 / 10 ^ 1, 101 + 5 / 10 ^ 1, 99 + 5 / 10 ^ 1⟩

/-- A small concrete frame with the provider's raw column labels. -/
def sampleDF : DataFrame :=
  { cols := ["1. open", "2. high", "3. low", "4. close", "5. volume"],
    rows := [("2024-01-03", [3, 4, 1, 2, 500]),
             ("2024-01-02", [2, 3, 1, 2, 400]),
             ("2024-01-01", [1, 2, 1, 2, 300])] }

/-- Exactly one side of a `(value, error)` pair is populated. -/
def isExclusive {α : Type} (r : Option α × Option String) : Prop :=
  (r.1 = none ∧ r.2 ≠ none) ∨ (r.1 ≠ none ∧ r.2 = none)

lemma parseQuote_exclusive (f : List (String × String)) : isExclusive (parseQuote f) := by
  unfold parseQuote
  split <;> simp [isExclusive]

lemma classifyEnvelope_exclusive (sym : String) (d : QuoteData) :
    isExclusive (classifyEnvelope sym d) := by
  obtain ⟨gq, em, nt, ot⟩ := d
  unfold classifyEnvelope
  rcases em with _ | m
  · rcases nt with _ | n
    · simp [isExclusive]
    · by_cases h : strContains n "API call frequency" <;> simp [isExclusive, h]
  · by_cases h : strContains m "Invalid API call" <;> simp [isExclusive, h]

lemma get_stock_price_exclusive (sym : String) (o : FetchOutcome) :
    isExclusive (get_stock_price sym o) := by
  unfold get_stock_price
  split
  · simp [isExclusive]
  split
  · simp [isExclusive]
  rcases o with _ | _ | m | _ | d
  · simp [isExclusive]
  · simp [isExclusive]
  · simp [isExclusive]
  · simp [isExclusive]
  · obtain ⟨gq, em, nt, ot⟩ := d
    show isExclusive (if QuoteData.isEmptyData ⟨gq, em, nt, ot⟩ then _ else _)
    split
    · simp [isExclusive]
    rcases gq with _ | q
    · exact classifyEnvelope_exclusive sym ⟨none, em, nt, ot⟩
    show isExclusive (if !q.isEmpty then _ else _)
    split
    · split
      · simp [isExclusive]
      split
      · exact parseQuote_exclusive q
      · exact classifyEnvelope_exclusive sym ⟨some q, em, nt, ot⟩
    · exact classifyEnvelope_exclusive sym ⟨some q, em, nt, ot⟩

lemma get_historical_data_exclusive (sym interval : String) (o : HistOutcome) :
    isExclusive (get_historical_data sym interval o) := by
  unfold get_historical_data
  split
  · simp [isExclusive]
  rcases o with _ | _ | m | m | m | df <;>
    (simp only [isExclusive]; (try split_ifs) <;> simp)

lemma get_company_overview_exclusive (sym : String) (o : OvOutcome) :
    isExclusive (get_company_overview sym o) := by
  unfold get_company_overview
  split
  · simp [isExclusive]
  rcases o with _ | _ | m | _ | data
  · simp [isExclusive]
  · simp [isExclusive]
  · simp [isExclusive]
  · simp [isExclusive]
  · show isExclusive (if _ then _ else if _ then _ else _)
    split
    · simp [isExclusive]
    split
    · simp [isExclusive]
    rcases data.lookup "Error Message" with _ | m
    · rcases data.lookup "Note" with _ | n
      · simp [isExclusive]
      · by_cases h : strContains n "API call frequency" <;> simp [isExclusive, h]
    · by_cases h : strContains m "Invalid API call" <;> simp [isExclusive, h]

/-- C6: for every input and every provider behaviour, `get_stock_price`,
`get_historical_data` and `get_company_overview` terminate (they are total
Lean functions over all modelled outcomes, including every exception the
HTTP layer can raise) and return a pair in which exactly one of the value
and the error message is present. -/
theorem fetch_functions_exclusive_pairs :
    ∀ (symbol interval : String) (o₁ : FetchOutcome) (o₂ : HistOutcome) (o₃ : OvOutcome),
      isExclusive (get_stock_price symbol o₁) ∧
      isExclusive (get_historical_data symbol interval o₂) ∧
      isExclusive (get_company_overview symbol o₃) :=
  fun s i o1 o2 o3 =>
    ⟨get_stock_price_exclusive s o1, get_historical_data_exclusive s i o2,
     get_company_overview_exclusive s o3⟩

/-- C2: for every series, `filter_by_period` returns the leading
`min(N, len)` bars in unchanged order where `N` comes from the fixed
period table, and the out-of-table period `"all"` returns the whole
series. -/
theorem filter_by_period_table_spec (df : DataFrame) (p : String) (n : Nat)
    (hp : (p, n) ∈ periodTable) :
    filter_by_period (some df) p = some { df with rows := df.rows.take n } ∧
    (df.rows.take n).length = min n df.rows.length ∧
    df.rows.take n ++ df.rows.drop n = df.rows ∧
    filter_by_period (some df) "all" = some df := by
  have hall : filter_by_period (some df) "all" = some df := by
    simp [filter_by_period]
  have hlen : (df.rows.take n).length = min n df.rows.length :=
    List.length_take n df.rows
  have hpre : df.rows.take n ++ df.rows.drop n = df.rows :=
    List.take_append_drop n df.rows
  simp only [periodTable, List.mem_cons, List.mem_singleton, Prod.mk.injEq,
    List.not_mem_nil, or_false] at hp
  rcases hp with ⟨rfl, rfl⟩ | ⟨rfl, rfl⟩ | ⟨rfl, rfl⟩ | ⟨rfl, rfl⟩ |
    ⟨rfl, rfl⟩ | ⟨rfl, rfl⟩ | ⟨rfl, rfl⟩ <;>
    exact ⟨by simp [filter_by_period], hlen, hpre, hall⟩

/-- Witness for C2 at the concrete series `sampleDF` and period `"1m"`. -/
theorem filter_by_period_table_spec_witness :
    filter_by_period (some sampleDF) "1m" = some { sampleDF with rows := sampleDF.rows.take 21 } ∧
    (sampleDF.rows.take 21).length = min 21 sampleDF.rows.length ∧
    sampleDF.rows.take 21 ++ sampleDF.rows.drop 21 = sampleDF.rows ∧
    filter_by_period (some sampleDF) "all" = some sampleDF :=
  filter_by_period_table_spec sampleDF "1m" 21 (by decide)

/-- C10: every period string outside the seven named ones behaves as the
unbounded fallthrough (the whole series is returned unchanged), and a
missing series stays missing for every period. -/
theorem filter_by_period_default_spec (df : DataFrame) (p : String)
    (hp : p ∉ ["1d", "5d", "1m", "3m", "6m", "1y", "5y"]) :
    filter_by_period (some df) p = some df ∧
    ∀ p2 : String, filter_by_period none p2 = none := by
  simp only [List.mem_cons, List.not_mem_nil, or_false, not_or] at hp
  obtain ⟨h1, h2, h3, h4, h5, h6, h7⟩ := hp
  exact ⟨by simp [filter_by_period, h1, h2, h3, h4, h5, h6, h7], fun _ => rfl⟩

/-- Witness for C10 at the concrete unrecognized period `"2w"`. -/
theorem filter_by_period_default_spec_witness :
    filter_by_period (some sampleDF) "2w" = some sampleDF ∧
    ∀ p2 : String, filter_by_period none p2 = none :=
  filter_by_period_default_spec sampleDF "2w" (by decide)

/-- C7: normalization renames exactly the five provider column labels to
`Open, High, Low, Close, Volume`, fixes every other label, and leaves
every cell value of every row unchanged. -/
theorem rename_columns_spec (df : DataFrame) :
    (renameDF df).rows = df.rows ∧
    (renameDF df).cols = df.cols.map avRename ∧
    avRename "1. open" = "Open" ∧ avRename "2. high" = "High" ∧
    avRename "3. low" = "Low" ∧ avRename "4. close" = "Close" ∧
    avRename "5. volume" = "Volume" ∧
    ∀ k, k ∉ avRenameMap.map Prod.fst → avRename k = k := by
  refine ⟨rfl, rfl, rfl, rfl, rfl, rfl, rfl, ?_⟩
  intro k hk
  simp only [avRenameMap, List.map_cons, List.map_nil, List.mem_cons,
    List.not_mem_nil, or_false, not_or] at hk
  obtain ⟨h1, h2, h3, h4, h5⟩ := hk
  have e1 : (k == "1. open") = false := beq_eq_false_iff_ne.mpr h1
  have e2 : (k == "2. high") = false := beq_eq_false_iff_ne.mpr h2
  have e3 : (k == "3. low") = false := beq_eq_false_iff_ne.mpr h3
  have e4 : (k == "4. close") = false := beq_eq_false_iff_ne.mpr h4
  have e5 : (k == "5. volume") = false := beq_eq_false_iff_ne.mpr h5
  simp [avRename, avRenameMap, List.lookup, e1, e2, e3, e4, e5]

/-- Witness for C7 at the concrete frame `sampleDF` and the foreign label
`"Date"`. -/
theorem rename_columns_spec_witness :
    (renameDF sampleDF).rows = sampleDF.rows ∧ avRename "Date" = "Date" :=
  ⟨(rename_columns_spec sampleDF).1,
   (rename_columns_spec sampleDF).2.2.2.2.2.2.2 "Date" (by decide)⟩

lemma alnum_not_whitespace (c : Char) (h : c.isAlphanum = true) :
    c.isWhitespace = false := by
  by_contra hw
  rw [Bool.not_eq_false] at hw
  simp only [Char.isWhitespace] at hw
  rcases Bool.or_eq_true_iff.mp hw with hw' | h4
  · rcases Bool.or_eq_true_iff.mp hw' with hw'' | h3
    · rcases Bool.or_eq_true_iff.mp hw'' with h1 | h2
      · rw [decide_eq_true_iff] at h1; subst h1; exact absurd h (by decide)
      · rw [decide_eq_true_iff] at h2; subst h2; exact absurd h (by decide)
    · rw [decide_eq_true_iff] at h3; subst h3; exact absurd h (by decide)
  · rw [decide_eq_true_iff] at h4; subst h4; exact absurd h (by decide)

lemma parseQuote_sample : parseQuote sampleQuoteFields = (some sampleQuote, none) := rfl

/-- Counterexample to C1: `"BRK.B"` contains only letters and a period,
yet `get_stock_price` rejects it with the validation error even when the
provider would have answered with a full quote, and `"$$$"` contains a
character outside the allowed set, yet `get_historical_data` performs no
character-class validation and returns the provider's series. -/
theorem symbol_validation_counterexample :
    get_stock_price "BRK.B" (.json ⟨some sampleQuoteFields, none, none, []⟩)
      = (none, some "Error: Stock symbol should only contain letters and numbers.") ∧
    get_historical_data "$$$" "daily" (.ok sampleDF) = (some (renameDF sampleDF), none) :=
  ⟨rfl, rfl⟩

/-- C1 amended: `get_stock_price` returns the validation error without
consulting the network for empty/whitespace symbols and for any symbol
that is not purely alphanumeric (so hyphens and periods are rejected too);
`get_historical_data` validates only emptiness/whitespace; purely
alphanumeric non-empty symbols pass validation and reach the provider. -/
theorem symbol_validation_amended (sym interval : String) (o : FetchOutcome)
    (ho : HistOutcome) :
    (sym.data.all Char.isWhitespace = true →
      get_stock_price sym o = (none, some "Error: Please enter a valid stock symbol.") ∧
      get_historical_data sym interval ho
        = (none, some "Error: Please enter a valid stock symbol.")) ∧
    (sym.data.all Char.isWhitespace = false → sym.data.all Char.isAlphanum = false →
      get_stock_price sym o
        = (none, some "Error: Stock symbol should only contain letters and numbers.")) ∧
    (sym.data ≠ [] → sym.data.all Char.isAlphanum = true →
      get_stock_price sym (.json ⟨some sampleQuoteFields, none, none, []⟩)
        = (some sampleQuote, none)) := by
  refine ⟨fun hws => ?_, fun hws halnum => ?_, fun hne halnum => ?_⟩
  · constructor
    · unfold get_stock_price
      rw [if_pos hws]
    · unfold get_historical_data
      rw [if_pos hws]
  · unfold get_stock_price
    rw [if_neg (by simp [hws]), if_pos (by simp [halnum])]
  · have hws : sym.data.all Char.isWhitespace = false := by
      rcases hd : sym.data with _ | ⟨c, rest⟩
      · exact absurd hd hne
      · have hc : c.isAlphanum = true :=
          List.all_eq_true.mp (hd ▸ halnum) c (List.mem_cons_self c rest)
        refine List.all_eq_false.mpr ⟨c, List.mem_cons_self c rest, ?_⟩
        simp [alnum_not_whitespace c hc]
    unfold get_stock_price
    rw [if_neg (by simp [hws]), if_neg (by simp [halnum])]
    exact parseQuote_sample

/-- Witness for the amended C1 at the concrete symbols `" "`, `"BRK-B"`
and `"IBM"`. -/
theorem symbol_validation_amended_witness :
    get_stock_price " " FetchOutcome.timeout
      = (none, some "Error: Please enter a valid stock symbol.") ∧
    get_stock_price "BRK-B" FetchOutcome.timeout
      = (none, some "Error: Stock symbol should only contain letters and numbers.") ∧
    get_stock_price "IBM" (.json ⟨some sampleQuoteFields, none, none, []⟩)
      = (some sampleQuote, none) :=
  ⟨((symbol_validation_amended " " "daily" .timeout .timeout).1 (by decide)).1,
   (symbol_validation_amended "BRK-B" "daily" .timeout .timeout).2.1 (by decide) (by decide),
   (symbol_validation_amended "IBM" "daily" .timeout .timeout).2.2 (by decide) (by decide)⟩

/-- Counterexample to C3: an `"Error Message"` envelope containing
"API call frequency" is returned verbatim by the quote fetch, not
classified with the rate-limit message. -/
theorem envelope_classification_counterexample :
    get_stock_price "IBM" (.json ⟨none, some "API call frequency exceeded", none, []⟩)
      = (none, some "API call frequency exceeded") ∧
    "API call frequency exceeded"
      ≠ "Rate limit reached. Alpha Vantage allows only 5 API calls per minute on the free tier. Please wait a minute and try again." :=
  ⟨rfl, by decide⟩

/-- C3 amended: in the quote fetch an `"Error Message"` envelope
containing "Invalid API call" classifies as invalid symbol, while the
rate-limit classification is attached to the `"Note"` envelope; an
`"Error Message"` without "Invalid API call" is surfaced verbatim even if
it mentions "API call frequency". In the historical fetch both phrases are
classified from the exception text. -/
theorem envelope_classification_amended (sym : String) (d : QuoteData)
    (hws : sym.data.all Char.isWhitespace = false)
    (halnum : sym.data.all Char.isAlphanum = true)
    (hgq : d.globalQuote = none) :
    (∀ m, d.errorMessage = some m → strContains m "Invalid API call" = true →
      get_stock_price sym (.json d)
        = (none, some ("Error: Invalid symbol '" ++ sym ++ "'. Please enter a valid stock symbol."))) ∧
    (∀ m, d.errorMessage = some m → strContains m "Invalid API call" = false →
      get_stock_price sym (.json d) = (none, some m)) ∧
    (∀ n, d.errorMessage = none → d.note = some n →
      strContains n "API call frequency" = true →
      get_stock_price sym (.json d)
        = (none, some "Rate limit reached. Alpha Vantage allows only 5 API calls per minute on the free tier. Please wait a minute and try again.")) ∧
    (∀ m, strContains m "Invalid API call" = true →
      get_historical_data sym "daily" (.callError m)
        = (none, some ("Error: '" ++ sym ++ "' is not a valid stock symbol."))) ∧
    (∀ m, strContains m "Invalid API call" = false →
      strContains m "API call frequency" = true →
      get_historical_data sym "daily" (.callError m)
        = (none, some "Rate limit reached. Alpha Vantage allows only 5 API calls per minute on the free tier.")) := by
  obtain ⟨gq, em, nt, ot⟩ := d
  simp only at hgq
  subst hgq
  refine ⟨fun m hm hc => ?_, fun m hm hc => ?_, fun n hem hn hc => ?_,
    fun m hc => ?_, fun m h1 h2 => ?_⟩
  · simp only at hm
    subst hm
    simp [get_stock_price, hws, halnum, classifyEnvelope, QuoteData.isEmptyData, hc]
  · simp only at hm
    subst hm
    simp [get_stock_price, hws, halnum, classifyEnvelope, QuoteData.isEmptyData, hc]
  · simp only at hem hn
    subst hem
    subst hn
    simp [get_stock_price, hws, halnum, classifyEnvelope, QuoteData.isEmptyData, hc]
  · simp [get_historical_data, hws, intervalOK, hc]
  · simp [get_historical_data, hws, intervalOK, h1, h2]

/-- Witness for the amended C3 at concrete envelopes. -/
theorem envelope_classification_amended_witness :
    get_stock_price "IBM" (.json ⟨none, some "Invalid API call TIME_SERIES_DAILY", none, []⟩)
      = (none, some "Error: Invalid symbol 'IBM'. Please enter a valid stock symbol.") ∧
    get_stock_price "IBM" (.json ⟨none, some "something else went wrong", none, []⟩)
      = (none, some "something else went wrong") ∧
    get_stock_price "IBM" (.json ⟨none, none, some "our standard API call frequency is 5 calls per minute", []⟩)
      = (none, some "Rate limit reached. Alpha Vantage allows only 5 API calls per minute on the free tier. Please wait a minute and try again.") ∧
    get_historical_data "IBM" "daily" (.callError "Invalid API call for symbol")
      = (none, some "Error: 'IBM' is not a valid stock symbol.") ∧
    get_historical_data "IBM" "daily" (.callError "API call frequency exceeded")
      = (none, some "Rate limit reached. Alpha Vantage allows only 5 API calls per minute on the free tier.") :=
  ⟨(envelope_classification_amended "IBM" ⟨none, some "Invalid API call TIME_SERIES_DAILY", none, []⟩
      (by decide) (by decide) rfl).1 _ rfl (by decide),
   (envelope_classification_amended "IBM" ⟨none, some "something else went wrong", none, []⟩
      (by decide) (by decide) rfl).2.1 _ rfl (by decide),
   (envelope_classification_amended "IBM"
      ⟨none, none, some "our standard API call frequency is 5 calls per minute", []⟩
      (by decide) (by decide) rfl).2.2.1 _ rfl rfl (by decide),
   (envelope_classification_amended "IBM" ⟨none, none, none, []⟩
      (by decide) (by decide) rfl).2.2.2.1 _ (by decide),
   (envelope_classification_amended "IBM" ⟨none, none, none, []⟩
      (by decide) (by decide) rfl).2.2.2.2 _ (by decide) (by decide)⟩

/-- Counterexample to C5: when the provider returns an empty series, the
fetch-and-filter pipeline reports a classified error message, not a
first-class empty result. -/
theorem empty_series_counterexample :
    fetch_and_filter "IBM" "daily" "1m" (.ok ⟨["1. open"], []⟩)
      = (none, some "No historical data available for symbol 'IBM'.") :=
  rfl

/-- C5 amended: the filter stage does return empty and missing series as
first-class results (an empty series filters to an empty series, a
missing one stays `none`, never an error), but the fetch stage classifies
an empty provider series as an error before filtering, so the pipeline
never surfaces an empty series as an empty result. -/
theorem empty_series_amended (p sym : String) (df : DataFrame) :
    filter_by_period none p = none ∧
    (df.rows = [] → ∃ d2, filter_by_period (some df) p = some d2 ∧ d2.rows = []) ∧
    (sym.data.all Char.isWhitespace = false → df.rows = [] →
      fetch_and_filter sym "daily" p (.ok df)
        = (none, some ("No historical data available for symbol '" ++ sym ++ "'."))) := by
  refine ⟨rfl, fun h => ?_, fun hws h => ?_⟩
  · unfold filter_by_period
    split_ifs <;> exact ⟨_, rfl, by simp [h]⟩
  · have hrows : df.rows.isEmpty = true := by simp [h]
    unfold fetch_and_filter get_historical_data
    rw [if_neg (by simp [hws])]
    simp [intervalOK, hrows, filter_by_period]

/-- Witness for the amended C5 at the concrete empty frame. -/
theorem empty_series_amended_witness :
    filter_by_period none "1m" = none ∧
    (∃ d2, filter_by_period (some (⟨["1. open"], []⟩ : DataFrame)) "1m" = some d2 ∧
      d2.rows = []) ∧
    fetch_and_filter "AMZN" "daily" "1m" (.ok ⟨["1. open"], []⟩)
      = (none, some "No historical data available for symbol 'AMZN'.") :=
  ⟨(empty_series_amended "1m" "AMZN" ⟨["1. open"], []⟩).1,
   (empty_series_amended "1m" "AMZN" ⟨["1. open"], []⟩).2.1 rfl,
   (empty_series_amended "1m" "AMZN" ⟨["1. open"], []⟩).2.2 (by decide) rfl⟩

/-- C9: a present, non-empty `"Global Quote"` envelope with at most one
key makes `get_stock_price` return the "No data found" classification,
whatever the surviving key is and whatever else the body carries. -/
theorem thin_envelope_notfound (sym : String) (q : List (String × String))
    (em nt : Option String) (ot : List (String × String))
    (hws : sym.data.all Char.isWhitespace = false)
    (halnum : sym.data.all Char.isAlphanum = true)
    (hne : q ≠ []) (hlen : q.length ≤ 1) :
    get_stock_price sym (.json ⟨some q, em, nt, ot⟩)
      = (none, some ("Error: No data found for symbol '" ++ sym
          ++ "'. Please check if the symbol is correct.")) := by
  simp [get_stock_price, hws, halnum, QuoteData.isEmptyData, hne, hlen]

/-- Witness for C9 at a one-key envelope that is missing the price field. -/
theorem thin_envelope_notfound_witness :
    get_stock_price "IBM" (.json ⟨some [("01. symbol", "IBM")], none, none, []⟩)
      = (none, some "Error: No data found for symbol 'IBM'. Please check if the symbol is correct.") :=
  thin_envelope_notfound "IBM" [("01. symbol", "IBM")] none none []
    (by decide) (by decide) (by decide) (by decide)

lemma dropWhile_head_false (p : Char → Bool) {l : List Char} {c : Char} {t : List Char}
    (h : l.dropWhile p = c :: t) : p c = false := by
  induction l with
  | nil => simp at h
  | cons a l ih =>
    rw [List.dropWhile_cons] at h
    split_ifs at h with ha
    · exact ih h
    · rw [List.cons.injEq] at h
      obtain ⟨rfl, -⟩ := h
      simpa using ha

lemma parseUnsigned_no_percent {l : List Char} {q : ℚ} (h : parseUnsigned l = some q) :
    '%' ∉ l := by
  unfold parseUnsigned at h
  rcases hdw : l.dropWhile (fun c => c != '.') with _ | ⟨c, fp⟩ <;>
    simp only [hdw] at h
  · split_ifs at h with hcond
    rw [Bool.and_eq_true] at hcond
    intro hmem
    rw [← List.takeWhile_append_dropWhile (fun c => c != '.') l, hdw,
      List.append_nil] at hmem
    exact absurd (List.all_eq_true.mp hcond.2 '%' hmem) (by decide)
  · split_ifs at h with hcond
    rw [Bool.and_eq_true, Bool.and_eq_true] at hcond
    obtain ⟨⟨hor, hip⟩, hfp⟩ := hcond
    have hc0 : (fun x => x != '.') c = false :=
      dropWhile_head_false (fun x => x != '.') hdw
    have hc : (c != '.') = false := hc0
    have hcdot : c = '.' := by simpa [bne] using hc
    intro hmem
    rw [← List.takeWhile_append_dropWhile (fun c => c != '.') l, hdw] at hmem
    rcases List.mem_append.mp hmem with h1 | h1
    · exact absurd (List.all_eq_true.mp hip '%' h1) (by decide)
    · rcases List.mem_cons.mp h1 with h2 | h2
      · rw [hcdot] at h2
        exact absurd h2 (by decide)
      · exact absurd (List.all_eq_true.mp hfp '%' h2) (by decide)

lemma parseDecimal_no_percent {l : List Char} {q : ℚ} (h : parseDecimal l = some q) :
    '%' ∉ l := by
  rcases l with _ | ⟨c, rest⟩
  · simp [parseDecimal] at h
  · simp only [parseDecimal] at h
    split_ifs at h with h1 h2
    · rcases Option.map_eq_some'.mp h with ⟨q0, hq0, -⟩
      have hrest := parseUnsigned_no_percent hq0
      intro hmem
      rcases List.mem_cons.mp hmem with h3 | h3
      · subst h1
        exact absurd h3 (by decide)
      · exact hrest h3
    · have hrest := parseUnsigned_no_percent h
      intro hmem
      rcases List.mem_cons.mp hmem with h3 | h3
      · subst h2
        exact absurd h3 (by decide)
      · exact hrest h3
    · exact parseUnsigned_no_percent h

lemma parseDecimal_strip_agree {s : List Char} {q : ℚ}
    (h : parseDecimal (dropTrailPercent s) = some q) :
    parseDecimal (stripPercent s) = some q := by
  have hnp := parseDecimal_no_percent h
  unfold stripPercent dropLeadPercent
  rcases ht : dropTrailPercent s with _ | ⟨c, t⟩
  · rw [ht] at h
    simp [parseDecimal] at h
  · rw [ht] at h hnp
    have hcne : c ≠ '%' := by
      intro e
      subst e
      exact hnp (List.mem_cons_self _ _)
    have hc : (c == '%') = false := by simp [hcne]
    rw [List.dropWhile_cons, hc]
    simpa using h

lemma cpField_agree {f : List (String × String)} {s : String} {q : ℚ}
    (hl : f.lookup "10. change percent" = some s)
    (hp : parseDecimal (dropTrailPercent s.data) = some q) :
    cpField f = .ok (q / 100) := by
  simp only [cpField, hl, parseDecimal_strip_agree hp]

lemma exceptBind_error {α β : Type} (e : String) (g : α → Except String β) :
    (Except.error e : Except String α) >>= g = Except.error e := rfl

lemma exceptBind_ok {α β : Type} (a : α) (g : α → Except String β) :
    (Except.ok a : Except String α) >>= g = g a := rfl

lemma parseQuoteE_change_percent {f : List (String × String)} {quote : Quote}
    (h : parseQuoteE f = .ok quote) : cpField f = .ok quote.change_percent := by
  unfold parseQuoteE at h
  rcases h1 : floatField f "05. price" with e | p <;> rw [h1] at h
  · rw [exceptBind_error] at h
    exact Except.noConfusion h
  rw [exceptBind_ok] at h
  rcases h2 : floatField f "09. change" with e | c <;> rw [h2] at h
  · rw [exceptBind_error] at h
    exact Except.noConfusion h
  rw [exceptBind_ok] at h
  rcases h3 : cpField f with e | cp <;> rw [h3] at h
  · rw [exceptBind_error] at h
    exact Except.noConfusion h
  rw [exceptBind_ok] at h
  rcases h4 : floatField f "08. previous close" with e | pc <;> rw [h4] at h
  · rw [exceptBind_error] at h
    exact Except.noConfusion h
  rw [exceptBind_ok] at h
  rcases h5 : intField f "06. volume" with e | v <;> rw [h5] at h
  · rw [exceptBind_error] at h
    exact Except.noConfusion h
  rw [exceptBind_ok] at h
  rcases h6 : strField f "07. latest trading day" with e | ltd <;> rw [h6] at h
  · rw [exceptBind_error] at h
    exact Except.noConfusion h
  rw [exceptBind_ok] at h
  rcases h7 : floatField f "02. open" with e | o <;> rw [h7] at h
  · rw [exceptBind_error] at h
    exact Except.noConfusion h
  rw [exceptBind_ok] at h
  rcases h8 : floatField f "03. high" with e | hi <;> rw [h8] at h
  · rw [exceptBind_error] at h
    exact Except.noConfusion h
  rw [exceptBind_ok] at h
  rcases h9 : floatField f "04. low" with e | lo <;> rw [h9] at h
  · rw [exceptBind_error] at h
    exact Except.noConfusion h
  rw [exceptBind_ok] at h
  injection h with h10
  rw [← h10]

/-- C8: whenever `get_stock_price`'s parser accepts a quote, the stored
`change_percent` is the numeric value of the provider's
`"10. change percent"` string with its trailing percent sign stripped,
divided by 100 — a fraction, not a whole percent. -/
theorem change_percent_is_fraction (f : List (String × String)) (s : String)
    (quote : Quote) (q : ℚ)
    (hl : f.lookup "10. change percent" = some s)
    (hq : parseQuote f = (some quote, none))
    (hp : parseDecimal (dropTrailPercent s.data) = some q) :
    quote.change_percent = q / 100 := by
  have hE : parseQuoteE f = .ok quote := by
    unfold parseQuote at hq
    rcases hE2 : parseQuoteE f with e | q2 <;> rw [hE2] at hq
    · exact absurd hq (by simp)
    · simp only [Prod.mk.injEq, Option.some.injEq, and_true] at hq
      rw [hq]
  have h1 := parseQuoteE_change_percent hE
  have h2 := cpField_agree hl hp
  rw [h2] at h1
  injection h1 with h3
  exact h3.symm

/-- Witness for C8 at the concrete payload `sampleQuoteFields`, whose
change-percent string is `"1.5152%"`. -/
theorem change_percent_is_fraction_witness :
    sampleQuote.change_percent = (1 + 5152 / 10 ^ 4 : ℚ) / 100 :=
  change_percent_is_fraction sampleQuoteFields "1.5152%" sampleQuote
    (1 + 5152 / 10 ^ 4) rfl rfl rfl

/-- C4 (modelled from the spec, the dual-mode resolver source being
absent): `resolveDemo("AAPL")` hits the static table deterministically
with price 188.5 and change 2.75, and an absent, syntactically valid
symbol yields a synthetic quote carrying the bounded random draws with
`change_percent = round(change/price*100, 2)`. -/
theorem resolveDemo_spec :
    (∀ price change : ℚ,
      (resolveDemo "AAPL" price change).price = 188.5 ∧
      (resolveDemo "AAPL" price change).change = 2.75 ∧
      resolveDemo "AAPL" price change = resolveDemo "AAPL" 0 0) ∧
    (∀ price change : ℚ, 50 ≤ price → price ≤ 500 → -10 ≤ change → change ≤ 10 →
      (resolveDemo "ZZZZ" price change).price = price ∧
      50 ≤ (resolveDemo "ZZZZ" price change).price ∧
      (resolveDemo "ZZZZ" price change).price ≤ 500 ∧
      (resolveDemo "ZZZZ" price change).change = change ∧
      -10 ≤ (resolveDemo "ZZZZ" price change).change ∧
      (resolveDemo "ZZZZ" price change).change ≤ 10 ∧
      (resolveDemo "ZZZZ" price change).change_percent
        = roundTo2 ((resolveDemo "ZZZZ" price change).change
            / (resolveDemo "ZZZZ" price change).price * 100)) := by
  refine ⟨fun price change => ⟨rfl, rfl, rfl⟩,
    fun price change h1 h2 h3 h4 => ⟨rfl, h1, h2, rfl, h3, h4, rfl⟩⟩

/-- Witness for C4 at the concrete draws price 100, change 5. -/
theorem resolveDemo_spec_witness :
    (resolveDemo "AAPL" 100 5).price = 188.5 ∧
    (resolveDemo "ZZZZ" 100 5).change_percent
      = roundTo2 ((resolveDemo "ZZZZ" 100 5).change / (resolveDemo "ZZZZ" 100 5).price * 100) :=
  ⟨(resolveDemo_spec.1 100 5).1,
   (resolveDemo_spec.2 100 5 (by decide) (by decide) (by decide) (by decide)).2.2.2.2.2.2⟩

end FinanceInfo
